import Mathlib

/-
  Verification development for the webhook-listener repository.

  The subject is the `webhook` route handler of `src/app_postgres.py`
  (lines 256-421) together with the schema set up by `init_database`
  (unique constraints on `linkedin_contacts.email` and
  `linkedin_contacts.linkedin_url`, lines 96-107).

  Shallow embedding choices:
  * JSON payloads (the parsed request body, a Python object tree) are the
    inductive `Json` below; SQL NULL in a column is represented by
    `Json.null` (psycopg2 maps Python None to NULL and back).
  * Python dict `.get` raises AttributeError on non-dict receivers; this
    and the `websites[0]['url']` subscripting faults are modelled with
    `Except String`, the error carrying the message `str(e)` would show.
  * The PostgreSQL statements are modelled at the level of their contract:
    `INSERT ... ON CONFLICT (col) DO UPDATE ... RETURNING id, (xmax = 0)`
    matches an existing row on non-NULL equality of the arbiter column,
    otherwise inserts; a unique-constraint violation on the other column
    is a fault. (The source declares the constraints DEFERRABLE INITIALLY
    DEFERRED, so a real violation surfaces at COMMIT; the observable
    outcome - exception, rollback, HTTP 500 - is the same, and we check
    at the statement.)
  * One request = one transaction: `processWebhook` computes the
    transaction-local state and the handler `webhook` either commits it
    or, on a fault, discards it (psycopg2 rollback, lines 411-421).
  * Timestamps are a Nat clock held in the state; CURRENT_TIMESTAMP is
    constant within a transaction and the clock ticks at each commit.
-/

namespace WebhookListener

/-- A parsed JSON value, i.e. the Python object tree `request.get_json()`
produces: None, bool, int, str, list, dict (fields in insertion order). -/
inductive Json where
  | null : Json
  | bool (b : Bool) : Json
  | num (n : Int) : Json
  | str (s : String) : Json
  | arr (xs : List Json) : Json
  | obj (fields : List (String × Json)) : Json
deriving Repr

mutual

/-- Structural equality on `Json` (Python `==` on parsed-JSON trees). -/
def Json.beq : Json → Json → Bool
  | .null, .null => true
  | .bool a, .bool b => a == b
  | .num a, .num b => a == b
  | .str a, .str b => a == b
  | .arr a, .arr b => Json.beqL a b
  | .obj a, .obj b => Json.beqF a b
  | _, _ => false

def Json.beqL : List Json → List Json → Bool
  | [], [] => true
  | a :: as, b :: bs => Json.beq a b && Json.beqL as bs
  | _, _ => false

def Json.beqF : List (String × Json) → List (String × Json) → Bool
  | [], [] => true
  | (k, v) :: as, (l, w) :: bs => k == l && Json.beq v w && Json.beqF as bs
  | _, _ => false

end

mutual

theorem Json.eq_of_beq : ∀ {a b : Json}, Json.beq a b = true → a = b
  | .null, .null, _ => rfl
  | .bool a, .bool b, h => by simpa [Json.beq] using h
  | .num a, .num b, h => by simpa [Json.beq] using h
  | .str a, .str b, h => by simpa [Json.beq] using h
  | .arr a, .arr b, h => by
      rw [Json.eqL_of_beqL (a := a) (b := b) (by simpa [Json.beq] using h)]
  | .obj a, .obj b, h => by
      rw [Json.eqF_of_beqF (a := a) (b := b) (by simpa [Json.beq] using h)]

theorem Json.eqL_of_beqL : ∀ {a b : List Json}, Json.beqL a b = true → a = b
  | [], [], _ => rfl
  | a :: as, b :: bs, h => by
      have h' := h
      simp only [Json.beqL, Bool.and_eq_true] at h'
      rw [Json.eq_of_beq h'.1, Json.eqL_of_beqL h'.2]

theorem Json.eqF_of_beqF : ∀ {a b : List (String × Json)}, Json.beqF a b = true → a = b
  | [], [], _ => rfl
  | (k, v) :: as, (l, w) :: bs, h => by
      have h' := h
      simp only [Json.beqF, Bool.and_eq_true, beq_iff_eq] at h'
      rw [h'.1.1, Json.eq_of_beq h'.1.2, Json.eqF_of_beqF h'.2]

end

mutual

theorem Json.beq_refl : ∀ a : Json, Json.beq a a = true
  | .null => rfl
  | .bool a => by simp [Json.beq]
  | .num a => by simp [Json.beq]
  | .str a => by simp [Json.beq]
  | .arr a => by simpa [Json.beq] using Json.beqL_refl a
  | .obj a => by simpa [Json.beq] using Json.beqF_refl a

theorem Json.beqL_refl : ∀ a : List Json, Json.beqL a a = true
  | [] => rfl
  | a :: as => by simp [Json.beqL, Json.beq_refl a, Json.beqL_refl as]

theorem Json.beqF_refl : ∀ a : List (String × Json), Json.beqF a a = true
  | [] => rfl
  | (k, v) :: as => by simp [Json.beqF, Json.beq_refl v, Json.beqF_refl as]

end

instance : DecidableEq Json := fun a b =>
  decidable_of_iff (Json.beq a b = true)
    ⟨Json.eq_of_beq, fun h => h ▸ Json.beq_refl a⟩

instance : BEq Json := ⟨Json.beq⟩

instance : LawfulBEq Json where
  eq_of_beq := Json.eq_of_beq
  rfl := Json.beq_refl _

instance {ε α : Type} [DecidableEq ε] [DecidableEq α] : DecidableEq (Except ε α) :=
  fun a b =>
    match a, b with
    | .ok x, .ok y =>
        if h : x = y then isTrue (by rw [h])
        else isFalse (by intro hh; injection hh; contradiction)
    | .error x, .error y =>
        if h : x = y then isTrue (by rw [h])
        else isFalse (by intro hh; injection hh; contradiction)
    | .ok _, .error _ => isFalse (by intro hh; cases hh)
    | .error _, .ok _ => isFalse (by intro hh; cases hh)

/-- Python truthiness of a parsed-JSON value (`if data`, `if contact_info`,
`if email`, `if websites`...): None, False, 0, empty str/list/dict are falsy. -/
def Json.truthy : Json → Bool
  | .null => false
  | .bool b => b
  | .num n => n != 0
  | .str s => s != ""
  | .arr xs => !xs.isEmpty
  | .obj fs => !fs.isEmpty

/-- First binding of a key in a parsed dict (keys are unique after parsing). -/
def Json.lookup : List (String × Json) → String → Option Json
  | [], _ => none
  | (k, v) :: fs, key => if k == key then some v else Json.lookup fs key

/-- Python `d.get(key, default)`: the value when `d` is a dict, the default
when the key is absent, and AttributeError when `d` is not a dict. -/
def Json.dictGet (d : Json) (key : String) (default : Json) : Except String Json :=
  match d with
  | .obj fs => .ok ((Json.lookup fs key).getD default)
  | _ => .error "AttributeError: object has no attribute get"

/-- Python `list(data.keys())` for a dict (used in the skip response). -/
def Json.keys : Json → List String
  | .obj fs => fs.map (fun p => p.1)
  | _ => []

/-- Line 271/292: `contact_info = data.get('contactInfo', {})`. -/
def contactInfoOf (data : Json) : Except String Json :=
  Json.dictGet data "contactInfo" (Json.obj [])

/-- Line 272/293: `email = contact_info.get('email', '') if contact_info else ''`. -/
def emailOf (data : Json) : Except String Json := do
  let contact_info ← contactInfoOf data
  if contact_info.truthy then Json.dictGet contact_info "email" (Json.str "")
  else pure (Json.str "")

/-- Line 273/291: `name = data.get('name', '')`. -/
def nameOf (data : Json) : Except String Json :=
  Json.dictGet data "name" (Json.str "")

/-- Line 274/294: `linkedin_url = contact_info.get('linkedinUrl', '') if
contact_info else data.get('profileUrl', '')`. -/
def linkedinUrlOf (data : Json) : Except String Json := do
  let contact_info ← contactInfoOf data
  if contact_info.truthy then Json.dictGet contact_info "linkedinUrl" (Json.str "")
  else Json.dictGet data "profileUrl" (Json.str "")

/-- Lines 297-298: `websites = contact_info.get('websites', []) if
contact_info else []` and `website = websites[0]['url'] if websites else ''`.
Subscripting a truthy non-list, or a first entry without a url key, raises. -/
def websiteOf (data : Json) : Except String Json := do
  let contact_info ← contactInfoOf data
  let websites ← if contact_info.truthy then Json.dictGet contact_info "websites" (Json.arr [])
                 else pure (Json.arr [])
  if websites.truthy then
    match websites with
    | .arr (w :: _) =>
        match w with
        | .obj fs =>
            match Json.lookup fs "url" with
            | some v => pure v
            | none => .error "KeyError: url"
        | _ => .error "TypeError: first websites entry is not subscriptable by url"
    | .arr [] => .error "IndexError: list index out of range"
    | _ => .error "TypeError: websites value is not subscriptable"
  else pure (Json.str "")

/-- Top-level field with empty-string default: `data.get('title', '')`,
`data.get('company', '')`, `data.get('location', '')`, `data.get('profile_data', '')`. -/
def topGet (data : Json) (key : String) : Except String Json :=
  Json.dictGet data key (Json.str "")

/-- One row of `linkedin_contacts` (schema at lines 78-93); `Json.null`
in a column is SQL NULL. -/
structure Contact where
  id : Nat
  name : Json
  title : Json
  company : Json
  location : Json
  email : Json
  linkedin_url : Json
  website : Json
  profile_data : Json
  raw_json : Json
  created_at : Nat
  updated_at : Nat
deriving Repr, DecidableEq

/-- One row of `webhook_logs` (schema at lines 134-145 plus the migrated
contact_name / linkedin_url columns). -/
structure LogEntry where
  log_id : Nat
  event_type : String
  contact_email : Json
  contact_name : Json
  linkedin_url : Json
  webhook_data : Json
  received_at : Nat
  processed : Bool
  contact_id : Option Nat
  processing_notes : Option String
deriving Repr, DecidableEq

/-- The durable database state: both tables, the two SERIAL sequences
(starting at 1), and a wall clock. -/
structure DBState where
  contacts : List Contact
  logs : List LogEntry
  nextContactId : Nat
  nextLogId : Nat
  now : Nat
deriving Repr, DecidableEq

def emptyState : DBState :=
  { contacts := [], logs := [], nextContactId := 1, nextLogId := 1, now := 0 }

/-- Whether two column values collide under a UNIQUE constraint:
equal and not NULL (SQL unique constraints ignore NULLs). -/
def sqlConflict (a b : Json) : Bool := a == b && !(a == Json.null)

/-- SQL `EXCLUDED.email != ''` under three-valued logic: not true when the
value is NULL. -/
def sqlNeqEmptyStr (a : Json) : Bool :=
  match a with
  | .null => false
  | v => !(v == Json.str "")

/-- The VALUES tuple of either INSERT into `linkedin_contacts`
(lines 333-343 and 364-374). -/
structure ContactVals where
  name : Json
  title : Json
  company : Json
  location : Json
  email : Json
  linkedin_url : Json
  website : Json
  profile_data : Json
  raw_json : Json
deriving Repr, DecidableEq

/-- The wall clock advances between transactions. -/
def tick (s : DBState) : DBState := { s with now := s.now + 1 }

/-- The SET clause of the email-conflict DO UPDATE (lines 322-331): every
column from EXCLUDED except id, email (equal to the conflict key anyway)
and created_at; updated_at refreshed to CURRENT_TIMESTAMP. -/
def applyEmailConflictUpdate (c : Contact) (v : ContactVals) (now : Nat) : Contact :=
  { c with name := v.name, title := v.title, company := v.company,
           location := v.location, linkedin_url := v.linkedin_url,
           website := v.website, profile_data := v.profile_data,
           raw_json := v.raw_json, updated_at := now }

/-- The SET clause of the linkedin_url-conflict DO UPDATE (lines 350-362):
every column from EXCLUDED except id, linkedin_url (the conflict key) and
created_at, where `email = CASE WHEN EXCLUDED.email != '' THEN
EXCLUDED.email ELSE linkedin_contacts.email END`. -/
def applyUrlConflictUpdate (c : Contact) (v : ContactVals) (now : Nat) : Contact :=
  { c with name := v.name, title := v.title, company := v.company,
           location := v.location,
           email := if sqlNeqEmptyStr v.email then v.email else c.email,
           website := v.website, profile_data := v.profile_data,
           raw_json := v.raw_json, updated_at := now }

/-- The freshly inserted VALUES row (lines 319-321 / 347-349): SERIAL id,
both timestamps set to CURRENT_TIMESTAMP. -/
def freshContact (s : DBState) (v : ContactVals) : Contact :=
  { id := s.nextContactId, name := v.name, title := v.title, company := v.company,
    location := v.location, email := v.email, linkedin_url := v.linkedin_url,
    website := v.website, profile_data := v.profile_data, raw_json := v.raw_json,
    created_at := s.now, updated_at := s.now }

/-- Lines 318-343: `INSERT INTO linkedin_contacts ... ON CONFLICT (email)
DO UPDATE SET` ..., `RETURNING id, (xmax = 0) AS inserted`. The arbiter
matches an existing row on non-NULL equality of email; a violation of the
other unique constraint (linkedin_url) by the resulting row is a fault. -/
def upsertByEmail (s : DBState) (v : ContactVals) : Except String (DBState × Nat × Bool) :=
  match s.contacts.find? (fun c => sqlConflict c.email v.email) with
  | some c =>
      let c' := applyEmailConflictUpdate c v s.now
      if s.contacts.any (fun o => o.id != c.id &&
          (sqlConflict o.email c'.email || sqlConflict o.linkedin_url c'.linkedin_url)) then
        .error "duplicate key value violates unique constraint"
      else
        .ok ({ s with contacts := s.contacts.map (fun o => if o.id == c.id then c' else o) },
             c.id, false)
  | none =>
      let c := freshContact s v
      if s.contacts.any (fun o =>
          sqlConflict o.email c.email || sqlConflict o.linkedin_url c.linkedin_url) then
        .error "duplicate key value violates unique constraint"
      else
        .ok ({ s with contacts := s.contacts ++ [c], nextContactId := s.nextContactId + 1 },
             c.id, true)

/-- Lines 346-374: `INSERT INTO linkedin_contacts ... ON CONFLICT
(linkedin_url) DO UPDATE SET` ..., `RETURNING id, (xmax = 0)`. The arbiter
matches on non-NULL equality of linkedin_url; a violation of the other
unique constraint (email) by the resulting row is a fault. -/
def upsertByLinkedinUrl (s : DBState) (v : ContactVals) : Except String (DBState × Nat × Bool) :=
  match s.contacts.find? (fun c => sqlConflict c.linkedin_url v.linkedin_url) with
  | some c =>
      let c' := applyUrlConflictUpdate c v s.now
      if s.contacts.any (fun o => o.id != c.id &&
          (sqlConflict o.email c'.email || sqlConflict o.linkedin_url c'.linkedin_url)) then
        .error "duplicate key value violates unique constraint"
      else
        .ok ({ s with contacts := s.contacts.map (fun o => if o.id == c.id then c' else o) },
             c.id, false)
  | none =>
      let c := freshContact s v
      if s.contacts.any (fun o =>
          sqlConflict o.email c.email || sqlConflict o.linkedin_url c.linkedin_url) then
        .error "duplicate key value violates unique constraint"
      else
        .ok ({ s with contacts := s.contacts ++ [c], nextContactId := s.nextContactId + 1 },
             c.id, true)

/-- Lines 276-287: `INSERT INTO webhook_logs (event_type, contact_email,
contact_name, linkedin_url, webhook_data) VALUES ... RETURNING log_id`
(processed defaults to FALSE, contact_id and processing_notes to NULL). -/
def insertLog (s : DBState) (log_email log_name log_linkedin data : Json) : DBState × Nat :=
  let entry : LogEntry :=
    { log_id := s.nextLogId, event_type := "linkedin_data",
      contact_email := log_email, contact_name := log_name,
      linkedin_url := log_linkedin, webhook_data := data,
      received_at := s.now, processed := false,
      contact_id := none, processing_notes := none }
  ({ s with logs := s.logs ++ [entry], nextLogId := s.nextLogId + 1 }, s.nextLogId)

/-- Lines 382-392: `UPDATE webhook_logs SET processed = TRUE,
contact_id = %s, processing_notes = %s WHERE log_id = %s`. -/
def markLogProcessed (s : DBState) (logId contactId : Nat) (note : String) : DBState :=
  { s with logs := s.logs.map (fun l =>
      if l.log_id == logId then
        { l with processed := true, contact_id := some contactId,
                 processing_notes := some note }
      else l) }

/-- Lines 263-265: the body answered when the parsed body is falsy. -/
def noDataBody : Json := Json.obj [("error", Json.str "No data provided")]

/-- Lines 308-313: the skip response body. -/
def skipBody (data : Json) (logId : Nat) : Json :=
  Json.obj
    [("status", Json.str "skipped"),
     ("message", Json.str "No email or LinkedIn URL provided"),
     ("log_id", Json.num (Int.ofNat logId)),
     ("data_keys", Json.arr (data.keys.map Json.str))]

/-- Line 390: the processing-notes text written into the delivery log. -/
def processingNote (wasInserted : Bool) (contactId : Nat) (emailTruthy : Bool) : String :=
  "Contact " ++ (if wasInserted then "created" else "updated") ++ " with ID " ++
    toString contactId ++ " (matched by " ++
    (if emailTruthy then "email" else "LinkedIn URL") ++ ")"

/-- Lines 400-408: the success response body. -/
def successBody (wasInserted : Bool) (contactId : Nat) (name email linkedin_url : Json)
    (logId : Nat) : Json :=
  Json.obj
    [("status", Json.str "success"),
     ("action", Json.str (if wasInserted then "created" else "updated")),
     ("contact_id", Json.num (Int.ofNat contactId)),
     ("name", name),
     ("email", email),
     ("linkedin_url", linkedin_url),
     ("matched_by", Json.str (if email.truthy then "email" else "linkedin_url")),
     ("log_id", Json.num (Int.ofNat logId))]

/-- Lines 259-409, the try-block of the route handler: returns the
committed state, HTTP status code and JSON body, or the exception message.
Every statement runs in one transaction; a fault anywhere makes the caller
roll the whole transaction back. The identifier extraction at lines
271-274 and at lines 291-294 evaluates the same expressions on the same
data, so it is computed once here. -/
def processWebhook (s : DBState) (data : Json) : Except String (DBState × Nat × Json) := do
  if !data.truthy then
    return (s, 400, noDataBody)
  let email ← emailOf data
  let name ← nameOf data
  let linkedin_url ← linkedinUrlOf data
  let (s1, log_id) := insertLog s email name linkedin_url data
  let website ← websiteOf data
  let unique_identifier := if email.truthy then email else linkedin_url
  if !unique_identifier.truthy then
    return (tick s1, 200, skipBody data log_id)
  let title ← topGet data "title"
  let company ← topGet data "company"
  let location ← topGet data "location"
  let profile_data ← topGet data "profile_data"
  let r ←
    if email.truthy then
      upsertByEmail s1
        { name := name, title := title, company := company, location := location,
          email := email, linkedin_url := linkedin_url, website := website,
          profile_data := profile_data, raw_json := data }
    else
      upsertByLinkedinUrl s1
        { name := name, title := title, company := company, location := location,
          email := if email.truthy then email else Json.null,
          linkedin_url := linkedin_url, website := website,
          profile_data := profile_data, raw_json := data }
  let (s2, contact_id, was_inserted) := r
  let s3 := markLogProcessed s2 log_id contact_id
    (processingNote was_inserted contact_id email.truthy)
  return (tick s3, if was_inserted then 201 else 200,
    successBody was_inserted contact_id name email linkedin_url log_id)

/-- Lines 256-421: the whole `POST /webhook` handler. A fault rolls back
the transaction (lines 411-417) and answers 500 with the message. -/
def webhook (s : DBState) (data : Json) : DBState × Nat × Json :=
  match processWebhook s data with
  | .ok r => r
  | .error msg => (s, 500, Json.obj [("status", Json.str "error"), ("message", Json.str msg)])

/-- Keys of a JSON object body, in dict insertion order. -/
def jkeys (body : Json) : List String := Json.keys body

/-- Field access on a JSON object body. -/
def jget (body : Json) (key : String) : Option Json :=
  match body with
  | .obj fs => Json.lookup fs key
  | _ => none

/-- A stored contact carries at least one usable identifier: a truthy
(non-NULL, non-empty) email or a truthy profile URL. -/
def hasIdentifier (c : Contact) : Bool :=
  c.email.truthy || c.linkedin_url.truthy

/-- No two distinct rows collide on a unique column: for every ordered
pair of rows, neither the emails nor the profile URLs are equal-and-non-NULL. -/
def pairwiseUniq : List Contact → Bool
  | [] => true
  | c :: cs =>
      cs.all (fun o => !sqlConflict c.email o.email && !sqlConflict c.linkedin_url o.linkedin_url)
        && pairwiseUniq cs

/-- Row identifiers are pairwise distinct. -/
def idsDistinct : List Contact → Bool
  | [] => true
  | c :: cs => cs.all (fun o => o.id != c.id) && idsDistinct cs

/-- The reachable-state housekeeping invariant: both unique constraints
hold, ids are distinct and below the SERIAL sequence value. -/
def stateOK (s : DBState) : Bool :=
  pairwiseUniq s.contacts && idsDistinct s.contacts
    && s.contacts.all (fun c => c.id < s.nextContactId)

/-- The first delivery of the spec example for C1:
`{"name":"Bob","profileUrl":"li.com/bob"}`. -/
def bobFirstDelivery : Json :=
  Json.obj [("name", Json.str "Bob"), ("profileUrl", Json.str "li.com/bob")]

/-- The second delivery of the spec example for C1:
`{"name":"Bob","contactInfo":{"email":"bob@x.com","linkedinUrl":"li.com/bob"}}`. -/
def bobSecondDelivery : Json :=
  Json.obj [("name", Json.str "Bob"),
    ("contactInfo", Json.obj [("email", Json.str "bob@x.com"),
      ("linkedinUrl", Json.str "li.com/bob")])]

/-- A truthy payload carrying neither email nor profile URL. -/
def nameOnlyDelivery : Json := Json.obj [("name", Json.str "x")]

/-- An email-only payload: `{"contactInfo":{"email":"a@x.com"}}`. -/
def emailOnlyA : Json :=
  Json.obj [("contactInfo", Json.obj [("email", Json.str "a@x.com")])]

/-- A second email-only payload with a different address. -/
def emailOnlyB : Json :=
  Json.obj [("contactInfo", Json.obj [("email", Json.str "b@x.com")])]

/-- A profile-URL-only payload: `{"name":"A","profileUrl":"li.com/a"}`. -/
def urlOnlyA : Json :=
  Json.obj [("name", Json.str "A"), ("profileUrl", Json.str "li.com/a")]

/-- A second profile-URL-only payload with a different URL. -/
def urlOnlyB : Json :=
  Json.obj [("name", Json.str "B"), ("profileUrl", Json.str "li.com/b")]

/-- A payload whose first websites entry has no url key:
`{"contactInfo":{"email":"a@x.com","websites":[{"text":"t"}]}}`. -/
def badWebsitesDelivery : Json :=
  Json.obj [("contactInfo", Json.obj [("email", Json.str "a@x.com"),
    ("websites", Json.arr [Json.obj [("text", Json.str "t")]])])]

/-- A payload with a truthy contactInfo object that lacks linkedinUrl,
next to a top-level profileUrl:
`{"contactInfo":{"email":"a@x.com"},"profileUrl":"li.com/a"}`. -/
def ciNoUrlDelivery : Json :=
  Json.obj [("contactInfo", Json.obj [("email", Json.str "a@x.com")]),
    ("profileUrl", Json.str "li.com/a")]

/-- A payload whose contactInfo is a truthy non-object, so that
`contact_info.get` raises AttributeError. -/
def badContactInfoDelivery : Json :=
  Json.obj [("contactInfo", Json.str "zzz")]

/-- The contact row produced by `urlOnlyA` from the empty store. -/
def urlRowA : Contact :=
  { id := 1, name := Json.str "A", title := Json.str "", company := Json.str "",
    location := Json.str "", email := Json.null, linkedin_url := Json.str "li.com/a",
    website := Json.str "", profile_data := Json.str "", raw_json := urlOnlyA,
    created_at := 0, updated_at := 0 }

/-- A well-shaped payload with a full nested structure. -/
def fullDelivery : Json :=
  Json.obj [("name", Json.str "Ada"),
    ("contactInfo", Json.obj [("email", Json.str "ada@x.com"),
      ("linkedinUrl", Json.str "li.com/ada"),
      ("websites", Json.arr [Json.obj [("url", Json.str "https://ada.example"),
        ("text", Json.str "home")]])])]

/-- C1: evaluation of the code at the failing input. The first delivery
(profile URL only) inserts a row with NULL email, but the second delivery
for the same profile URL carrying a non-empty email is routed to the
email-keyed upsert, which finds no row with that email and attempts a
fresh insert; that insert collides with the existing row on the
linkedin_url unique constraint, so the request fails with 500 and rolls
back, leaving the first row unchanged with NULL email - the same internal
row is NOT updated and its email is NOT populated, contradicting the
claimed behaviour. -/
theorem C1_second_delivery_faults :
    (webhook emptyState bobFirstDelivery).2.1 = 201 ∧
    ((webhook emptyState bobFirstDelivery).1.contacts.map
        (fun c => (c.id, c.email, c.linkedin_url)))
      = [(1, Json.null, Json.str "li.com/bob")] ∧
    (webhook (webhook emptyState bobFirstDelivery).1 bobSecondDelivery).2.1 = 500 ∧
    (webhook (webhook emptyState bobFirstDelivery).1 bobSecondDelivery).1
      = (webhook emptyState bobFirstDelivery).1 := by
  decide

/-- C2 counterexample: the claim covers the empty object, but the code
rejects `{}` with HTTP 400 before touching the store - no delivery log
entry is recorded and no skipped result is returned. -/
theorem C2_counterexample :
    webhook emptyState (Json.obj []) = (emptyState, 400, noDataBody) := by
  decide

/-- C3 counterexample: two deliveries carrying two different emails and no
profile URL do NOT both persist. The first stores linkedin_url as the
verbatim empty string; the second insert collides with it under the
linkedin_url unique constraint, fails with 500 and leaves one row. -/
theorem C3_counterexample :
    (webhook emptyState emailOnlyA).2.1 = 201 ∧
    ((webhook emptyState emailOnlyA).1.contacts.map
        (fun c => (c.email, c.linkedin_url)))
      = [(Json.str "a@x.com", Json.str "")] ∧
    (webhook (webhook emptyState emailOnlyA).1 emailOnlyB).2.1 = 500 ∧
    (webhook (webhook emptyState emailOnlyA).1 emailOnlyB).1.contacts.length = 1 := by
  decide

/-- C4 counterexample: a successful create answers HTTP 201, not 200, and
the success body carries a name key beyond the claimed key set. -/
theorem C4_counterexample :
    (webhook emptyState emailOnlyA).2.1 = 201 ∧
    jget (webhook emptyState emailOnlyA).2.2 "status" = some (Json.str "success") ∧
    jkeys (webhook emptyState emailOnlyA).2.2
      = ["status", "action", "contact_id", "name", "email", "linkedin_url",
         "matched_by", "log_id"] := by
  decide

/-- C6 counterexample: a payload whose websites list is non-empty but
whose first entry lacks a url key makes the extraction raise (KeyError),
and the fault surfaces to the caller as a 500 response - extraction does
not always yield an empty default. -/
theorem C6_counterexample :
    websiteOf badWebsitesDelivery = Except.error "KeyError: url" ∧
    (webhook emptyState badWebsitesDelivery).2.1 = 500 := by
  decide

/-- C7 counterexample: a payload with a truthy contactInfo object that
lacks linkedinUrl does NOT fall back to the top-level profileUrl - the
extracted profile URL is the empty string although profileUrl is set. -/
theorem C7_counterexample :
    jget ciNoUrlDelivery "profileUrl" = some (Json.str "li.com/a") ∧
    linkedinUrlOf ciNoUrlDelivery = Except.ok (Json.str "") := by
  decide


theorem exceptBind_ok {α β : Type} (a : α) (f : α → Except String β) :
    (Except.ok a >>= f) = f a := rfl

theorem exceptBind_error {α β : Type} (m : String) (f : α → Except String β) :
    ((Except.error m : Except String α) >>= f) = Except.error m := rfl

theorem exceptPure {α : Type} (a : α) : (pure a : Except String α) = Except.ok a := rfl

theorem processWebhook_nodata (s : DBState) (data : Json) (hd : data.truthy = false) :
    processWebhook s data = .ok (s, 400, noDataBody) := by
  simp only [processWebhook, hd, Bool.not_false, if_true, exceptPure]

theorem processWebhook_email_ok (s : DBState) (data e n u w ti co lo pd : Json)
    (s2 : DBState) (cid : Nat) (ins : Bool)
    (hd : data.truthy = true)
    (he : emailOf data = .ok e) (hn : nameOf data = .ok n)
    (hu : linkedinUrlOf data = .ok u) (hw : websiteOf data = .ok w)
    (hti : topGet data "title" = .ok ti) (hco : topGet data "company" = .ok co)
    (hlo : topGet data "location" = .ok lo) (hpd : topGet data "profile_data" = .ok pd)
    (het : e.truthy = true)
    (hup : upsertByEmail (insertLog s e n u data).1
      ⟨n, ti, co, lo, e, u, w, pd, data⟩ = .ok (s2, cid, ins)) :
    processWebhook s data =
      .ok (tick (markLogProcessed s2 s.nextLogId cid (processingNote ins cid true)),
        if ins then 201 else 200, successBody ins cid n e u s.nextLogId) := by
  simp only [processWebhook, hd, he, hn, hu, hw, hti, hco, hlo, hpd, het,
    exceptBind_ok, exceptBind_error, exceptPure, Bool.not_true, Bool.false_eq_true,
    if_false, if_true, insertLog] at hup ⊢
  simp only [hup, exceptBind_ok, het]

theorem processWebhook_email_err (s : DBState) (data e n u w ti co lo pd : Json)
    (m : String)
    (hd : data.truthy = true)
    (he : emailOf data = .ok e) (hn : nameOf data = .ok n)
    (hu : linkedinUrlOf data = .ok u) (hw : websiteOf data = .ok w)
    (hti : topGet data "title" = .ok ti) (hco : topGet data "company" = .ok co)
    (hlo : topGet data "location" = .ok lo) (hpd : topGet data "profile_data" = .ok pd)
    (het : e.truthy = true)
    (hup : upsertByEmail (insertLog s e n u data).1
      ⟨n, ti, co, lo, e, u, w, pd, data⟩ = .error m) :
    processWebhook s data = .error m := by
  simp only [processWebhook, hd, he, hn, hu, hw, hti, hco, hlo, hpd, het,
    exceptBind_ok, exceptBind_error, exceptPure, Bool.not_true, Bool.false_eq_true,
    if_false, if_true, insertLog] at hup ⊢
  simp only [hup, exceptBind_error]

theorem processWebhook_url_ok (s : DBState) (data e n u w ti co lo pd : Json)
    (s2 : DBState) (cid : Nat) (ins : Bool)
    (hd : data.truthy = true)
    (he : emailOf data = .ok e) (hn : nameOf data = .ok n)
    (hu : linkedinUrlOf data = .ok u) (hw : websiteOf data = .ok w)
    (hti : topGet data "title" = .ok ti) (hco : topGet data "company" = .ok co)
    (hlo : topGet data "location" = .ok lo) (hpd : topGet data "profile_data" = .ok pd)
    (het : e.truthy = false) (hut : u.truthy = true)
    (hup : upsertByLinkedinUrl (insertLog s e n u data).1
      ⟨n, ti, co, lo, Json.null, u, w, pd, data⟩ = .ok (s2, cid, ins)) :
    processWebhook s data =
      .ok (tick (markLogProcessed s2 s.nextLogId cid (processingNote ins cid false)),
        if ins then 201 else 200, successBody ins cid n e u s.nextLogId) := by
  simp only [processWebhook, hd, he, hn, hu, hw, hti, hco, hlo, hpd, het, hut,
    exceptBind_ok, exceptBind_error, exceptPure, Bool.not_true, Bool.not_false,
    Bool.false_eq_true, if_false, if_true, insertLog] at hup ⊢
  simp only [hup, exceptBind_ok, het]

theorem processWebhook_url_err (s : DBState) (data e n u w ti co lo pd : Json)
    (m : String)
    (hd : data.truthy = true)
    (he : emailOf data = .ok e) (hn : nameOf data = .ok n)
    (hu : linkedinUrlOf data = .ok u) (hw : websiteOf data = .ok w)
    (hti : topGet data "title" = .ok ti) (hco : topGet data "company" = .ok co)
    (hlo : topGet data "location" = .ok lo) (hpd : topGet data "profile_data" = .ok pd)
    (het : e.truthy = false) (hut : u.truthy = true)
    (hup : upsertByLinkedinUrl (insertLog s e n u data).1
      ⟨n, ti, co, lo, Json.null, u, w, pd, data⟩ = .error m) :
    processWebhook s data = .error m := by
  simp only [processWebhook, hd, he, hn, hu, hw, hti, hco, hlo, hpd, het, hut,
    exceptBind_ok, exceptBind_error, exceptPure, Bool.not_true, Bool.not_false,
    Bool.false_eq_true, if_false, if_true, insertLog] at hup ⊢
  simp only [hup, exceptBind_error]

theorem processWebhook_skip (s : DBState) (data e n u w : Json)
    (hd : data.truthy = true)
    (he : emailOf data = .ok e) (hn : nameOf data = .ok n)
    (hu : linkedinUrlOf data = .ok u) (hw : websiteOf data = .ok w)
    (het : e.truthy = false) (hut : u.truthy = false) :
    processWebhook s data =
      .ok (tick (insertLog s e n u data).1, 200, skipBody data s.nextLogId) := by
  simp only [processWebhook, hd, he, hn, hu, hw, het, hut, exceptBind_ok, exceptBind_error,
    exceptPure, Bool.not_true, Bool.false_eq_true, if_false, if_true, insertLog]
  rfl



theorem processWebhook_shape (s : DBState) (data : Json) (r : DBState × Nat × Json)
    (h : processWebhook s data = .ok r) :
    (r = (s, 400, noDataBody)) ∨
    (∃ e n u, emailOf data = .ok e ∧ nameOf data = .ok n ∧ linkedinUrlOf data = .ok u ∧
       e.truthy = false ∧ u.truthy = false ∧
       r = (tick (insertLog s e n u data).1, 200, skipBody data s.nextLogId)) ∨
    (∃ e n u s2 cid ins v,
       emailOf data = .ok e ∧ nameOf data = .ok n ∧ linkedinUrlOf data = .ok u ∧
       ContactVals.name v = n ∧ ContactVals.raw_json v = data ∧
       ((e.truthy = true ∧ ContactVals.email v = e ∧ ContactVals.linkedin_url v = u ∧
           upsertByEmail (insertLog s e n u data).1 v = .ok (s2, cid, ins)) ∨
        (e.truthy = false ∧ u.truthy = true ∧ ContactVals.email v = Json.null ∧
           ContactVals.linkedin_url v = u ∧
           upsertByLinkedinUrl (insertLog s e n u data).1 v = .ok (s2, cid, ins))) ∧
       r = (tick (markLogProcessed s2 s.nextLogId cid (processingNote ins cid e.truthy)),
            if ins then 201 else 200, successBody ins cid n e u s.nextLogId)) := by
  by_cases hd : data.truthy = true
  · cases he : emailOf data with
    | error m =>
        simp only [processWebhook, hd, he, exceptBind_ok, exceptBind_error, exceptPure, Bool.not_true, Bool.not_false, Bool.false_eq_true, if_false, if_true, insertLog] at h
        all_goals exact Except.noConfusion h
    | ok e =>
    cases hn : nameOf data with
    | error m =>
        simp only [processWebhook, hd, he, hn, exceptBind_ok, exceptBind_error, exceptPure, Bool.not_true, Bool.not_false, Bool.false_eq_true, if_false, if_true, insertLog] at h
        all_goals exact Except.noConfusion h
    | ok n =>
    cases hu : linkedinUrlOf data with
    | error m =>
        simp only [processWebhook, hd, he, hn, hu, exceptBind_ok, exceptBind_error, exceptPure, Bool.not_true, Bool.not_false, Bool.false_eq_true, if_false, if_true, insertLog] at h
        all_goals exact Except.noConfusion h
    | ok u =>
    cases hw : websiteOf data with
    | error m =>
        simp only [processWebhook, hd, he, hn, hu, hw, exceptBind_ok, exceptBind_error, exceptPure, Bool.not_true, Bool.not_false, Bool.false_eq_true, if_false, if_true, insertLog] at h
        all_goals exact Except.noConfusion h
    | ok w =>
    by_cases het : e.truthy = true
    · cases hti : topGet data "title" with
      | error m =>
          simp only [processWebhook, hd, he, hn, hu, hw, het, hti, exceptBind_ok, exceptBind_error, exceptPure, Bool.not_true, Bool.not_false, Bool.false_eq_true, if_false, if_true, insertLog] at h
          all_goals exact Except.noConfusion h
      | ok ti =>
      cases hco : topGet data "company" with
      | error m =>
          simp only [processWebhook, hd, he, hn, hu, hw, het, hti, hco, exceptBind_ok, exceptBind_error, exceptPure, Bool.not_true, Bool.not_false, Bool.false_eq_true, if_false, if_true, insertLog] at h
          all_goals exact Except.noConfusion h
      | ok co =>
      cases hlo : topGet data "location" with
      | error m =>
          simp only [processWebhook, hd, he, hn, hu, hw, het, hti, hco, hlo, exceptBind_ok, exceptBind_error, exceptPure, Bool.not_true, Bool.not_false, Bool.false_eq_true, if_false, if_true, insertLog] at h
          all_goals exact Except.noConfusion h
      | ok lo =>
      cases hpd : topGet data "profile_data" with
      | error m =>
          simp only [processWebhook, hd, he, hn, hu, hw, het, hti, hco, hlo, hpd, exceptBind_ok, exceptBind_error, exceptPure, Bool.not_true, Bool.not_false, Bool.false_eq_true, if_false, if_true, insertLog] at h
          all_goals exact Except.noConfusion h
      | ok pd =>
      cases hup : upsertByEmail (insertLog s e n u data).1
          ⟨n, ti, co, lo, e, u, w, pd, data⟩ with
      | error m =>
          rw [processWebhook_email_err s data e n u w ti co lo pd m hd he hn hu hw
            hti hco hlo hpd het hup] at h
          cases h
      | ok t =>
          obtain ⟨s2, cid, ins⟩ := t
          rw [processWebhook_email_ok s data e n u w ti co lo pd s2 cid ins hd he hn hu hw
            hti hco hlo hpd het hup] at h
          injection h with h
          refine Or.inr (Or.inr ⟨e, n, u, s2, cid, ins, ⟨n, ti, co, lo, e, u, w, pd, data⟩,
            rfl, rfl, rfl, rfl, rfl, Or.inl ⟨het, rfl, rfl, hup⟩, ?_⟩)
          rw [← h, het]
    · have het' : e.truthy = false := by
        cases hx : e.truthy
        · rfl
        · exact absurd hx het
      by_cases hut : u.truthy = true
      · cases hti : topGet data "title" with
        | error m =>
            simp only [processWebhook, hd, he, hn, hu, hw, het', hut, hti, exceptBind_ok, exceptBind_error, exceptPure, Bool.not_true, Bool.not_false, Bool.false_eq_true, if_false, if_true, insertLog] at h
            all_goals exact Except.noConfusion h
        | ok ti =>
        cases hco : topGet data "company" with
        | error m =>
            simp only [processWebhook, hd, he, hn, hu, hw, het', hut, hti, hco, exceptBind_ok, exceptBind_error, exceptPure, Bool.not_true, Bool.not_false, Bool.false_eq_true, if_false, if_true, insertLog] at h
            all_goals exact Except.noConfusion h
        | ok co =>
        cases hlo : topGet data "location" with
        | error m =>
            simp only [processWebhook, hd, he, hn, hu, hw, het', hut, hti, hco, hlo, exceptBind_ok, exceptBind_error, exceptPure, Bool.not_true, Bool.not_false, Bool.false_eq_true, if_false, if_true, insertLog] at h
            all_goals exact Except.noConfusion h
        | ok lo =>
        cases hpd : topGet data "profile_data" with
        | error m =>
            simp only [processWebhook, hd, he, hn, hu, hw, het', hut, hti, hco, hlo, hpd, exceptBind_ok, exceptBind_error, exceptPure, Bool.not_true, Bool.not_false, Bool.false_eq_true, if_false, if_true, insertLog] at h
            all_goals exact Except.noConfusion h
        | ok pd =>
        cases hup : upsertByLinkedinUrl (insertLog s e n u data).1
            ⟨n, ti, co, lo, Json.null, u, w, pd, data⟩ with
        | error m =>
            rw [processWebhook_url_err s data e n u w ti co lo pd m hd he hn hu hw
              hti hco hlo hpd het' hut hup] at h
            cases h
        | ok t =>
            obtain ⟨s2, cid, ins⟩ := t
            rw [processWebhook_url_ok s data e n u w ti co lo pd s2 cid ins hd he hn hu hw
              hti hco hlo hpd het' hut hup] at h
            injection h with h
            refine Or.inr (Or.inr ⟨e, n, u, s2, cid, ins,
              ⟨n, ti, co, lo, Json.null, u, w, pd, data⟩,
              rfl, rfl, rfl, rfl, rfl, Or.inr ⟨het', hut, rfl, rfl, hup⟩, ?_⟩)
            rw [← h, het']
      · have hut' : u.truthy = false := by
          cases hx : u.truthy
          · rfl
          · exact absurd hx hut
        rw [processWebhook_skip s data e n u w hd he hn hu hw het' hut'] at h
        injection h with h
        exact Or.inr (Or.inl ⟨e, n, u, rfl, rfl, rfl, het', hut', h.symm⟩)
  · have hd' : data.truthy = false := by
      cases hx : data.truthy
      · rfl
      · exact absurd hx hd
    rw [processWebhook_nodata s data hd'] at h
    injection h with h
    exact Or.inl h.symm


theorem upsertByEmail_update (s : DBState) (v : ContactVals) (c : Contact)
    (hfind : s.contacts.find? (fun o => sqlConflict o.email v.email) = some c)
    (hg : s.contacts.any (fun o => o.id != c.id &&
        (sqlConflict o.email (applyEmailConflictUpdate c v s.now).email ||
         sqlConflict o.linkedin_url (applyEmailConflictUpdate c v s.now).linkedin_url))
      = false) :
    upsertByEmail s v = .ok
      ({ s with contacts := s.contacts.map (fun o => if o.id == c.id then applyEmailConflictUpdate c v s.now else o) }, c.id, false) := by
  simp only [upsertByEmail, hfind, hg, Bool.false_eq_true, if_false]

theorem upsertByEmail_insert (s : DBState) (v : ContactVals)
    (hfind : s.contacts.find? (fun o => sqlConflict o.email v.email) = none)
    (hg : s.contacts.any (fun o =>
        sqlConflict o.email (freshContact s v).email ||
        sqlConflict o.linkedin_url (freshContact s v).linkedin_url) = false) :
    upsertByEmail s v = .ok
      ({ s with contacts := s.contacts ++ [freshContact s v], nextContactId := s.nextContactId + 1 }, s.nextContactId, true) := by
  simp only [upsertByEmail, hfind, hg, Bool.false_eq_true, if_false]
  rfl

theorem upsertByLinkedinUrl_update (s : DBState) (v : ContactVals) (c : Contact)
    (hfind : s.contacts.find? (fun o => sqlConflict o.linkedin_url v.linkedin_url) = some c)
    (hg : s.contacts.any (fun o => o.id != c.id &&
        (sqlConflict o.email (applyUrlConflictUpdate c v s.now).email ||
         sqlConflict o.linkedin_url (applyUrlConflictUpdate c v s.now).linkedin_url))
      = false) :
    upsertByLinkedinUrl s v = .ok
      ({ s with contacts := s.contacts.map (fun o => if o.id == c.id then applyUrlConflictUpdate c v s.now else o) }, c.id, false) := by
  simp only [upsertByLinkedinUrl, hfind, hg, Bool.false_eq_true, if_false]

theorem upsertByLinkedinUrl_insert (s : DBState) (v : ContactVals)
    (hfind : s.contacts.find? (fun o => sqlConflict o.linkedin_url v.linkedin_url) = none)
    (hg : s.contacts.any (fun o =>
        sqlConflict o.email (freshContact s v).email ||
        sqlConflict o.linkedin_url (freshContact s v).linkedin_url) = false) :
    upsertByLinkedinUrl s v = .ok
      ({ s with contacts := s.contacts ++ [freshContact s v], nextContactId := s.nextContactId + 1 }, s.nextContactId, true) := by
  simp only [upsertByLinkedinUrl, hfind, hg, Bool.false_eq_true, if_false]
  rfl

theorem sqlConflict_comm (a b : Json) : sqlConflict a b = sqlConflict b a := by
  by_cases h : a = b
  · subst h; rfl
  · have h1 : (a == b) = false := beq_eq_false_iff_ne.mpr h
    have h2 : (b == a) = false := beq_eq_false_iff_ne.mpr (Ne.symm h)
    simp [sqlConflict, h1, h2]

theorem guard_forall {α : Type} {l : List α} {f : α → Bool} (h : l.any f = false) :
    ∀ o ∈ l, f o = false := by
  intro o ho
  cases hx : f o
  · rfl
  · exact absurd (List.any_eq_true.mpr ⟨o, ho, hx⟩) (by simp [h])

/-- Contacts free of unique-key collisions with each other. -/
def noKeyClash (a b : Contact) : Prop :=
  sqlConflict a.email b.email = false ∧ sqlConflict a.linkedin_url b.linkedin_url = false

theorem noKeyClash_symm : Symmetric noKeyClash := by
  intro a b h
  exact ⟨by rw [sqlConflict_comm]; exact h.1, by rw [sqlConflict_comm]; exact h.2⟩

theorem pairwiseUniq_iff (l : List Contact) :
    pairwiseUniq l = true ↔ List.Pairwise noKeyClash l := by
  induction l with
  | nil => simp [pairwiseUniq]
  | cons a as ih =>
      simp [pairwiseUniq, List.all_eq_true, ih, List.pairwise_cons, noKeyClash,
        Bool.and_eq_true, Bool.not_eq_true']

theorem idsDistinct_iff (l : List Contact) :
    idsDistinct l = true ↔ List.Pairwise (fun a b => a.id ≠ b.id) l := by
  induction l with
  | nil => simp [idsDistinct]
  | cons a as ih =>
      simp only [idsDistinct, Bool.and_eq_true, List.all_eq_true, ih, List.pairwise_cons,
        bne_iff_ne, ne_eq]
      constructor
      · rintro ⟨h1, h2⟩
        exact ⟨fun o ho hq => h1 o ho hq.symm, h2⟩
      · rintro ⟨h1, h2⟩
        exact ⟨fun o ho hq => h1 o ho hq.symm, h2⟩

theorem stateOK_iff (s : DBState) : stateOK s = true ↔
    List.Pairwise noKeyClash s.contacts ∧
    List.Pairwise (fun a b => a.id ≠ b.id) s.contacts ∧
    ∀ c ∈ s.contacts, c.id < s.nextContactId := by
  simp [stateOK, Bool.and_eq_true, pairwiseUniq_iff, idsDistinct_iff, List.all_eq_true,
    decide_eq_true_eq, and_assoc]

theorem stateOK_insert_generic (s : DBState) (c : Contact)
    (hid : c.id = s.nextContactId)
    (hok : stateOK s = true)
    (hg : s.contacts.any (fun o =>
        sqlConflict o.email c.email || sqlConflict o.linkedin_url c.linkedin_url) = false) :
    stateOK { s with contacts := s.contacts ++ [c], nextContactId := s.nextContactId + 1 } = true := by
  obtain ⟨hpw, hids, hlt⟩ := (stateOK_iff s).mp hok
  have hgf := guard_forall hg
  apply (stateOK_iff _).mpr
  refine ⟨?_, ?_, ?_⟩
  · rw [List.pairwise_append]
    refine ⟨hpw, by simp, fun a ha b hb => ?_⟩
    simp only [List.mem_singleton] at hb
    subst hb
    have := hgf a ha
    simp only [Bool.or_eq_false_iff] at this
    exact ⟨this.1, this.2⟩
  · rw [List.pairwise_append]
    refine ⟨hids, by simp, fun a ha b hb => ?_⟩
    simp only [List.mem_singleton] at hb
    subst hb
    rw [hid]
    exact Nat.ne_of_lt (hlt a ha)
  · intro o ho
    simp only [List.mem_append, List.mem_singleton] at ho
    rcases ho with ho | ho
    · exact Nat.lt_succ_of_lt (hlt o ho)
    · subst ho; rw [hid]; exact Nat.lt_succ_self _

theorem stateOK_update_generic (s : DBState) (c c' : Contact)
    (hcid : c'.id = c.id)
    (hok : stateOK s = true)
    (hg : s.contacts.any (fun o => o.id != c.id &&
        (sqlConflict o.email c'.email || sqlConflict o.linkedin_url c'.linkedin_url))
      = false) :
    stateOK { s with contacts := s.contacts.map (fun o => if o.id == c.id then c' else o) } = true := by
  obtain ⟨hpw, hids, hlt⟩ := (stateOK_iff s).mp hok
  have hgf := guard_forall hg
  have hclash : ∀ o ∈ s.contacts, o.id ≠ c.id → noKeyClash o c' := by
    intro o ho hne
    have hbne : (o.id != c.id) = true := by simpa using hne
    have := hgf o ho
    rw [hbne, Bool.true_and] at this
    simp only [Bool.or_eq_false_iff] at this
    exact ⟨this.1, this.2⟩
  have hidsf : ∀ o : Contact, ((if o.id == c.id then c' else o).id) = o.id := by
    intro o
    by_cases hx : o.id = c.id
    · simp [hx, hcid]
    · simp [hx]
  apply (stateOK_iff _).mpr
  refine ⟨?_, ?_, ?_⟩
  · rw [List.pairwise_map]
    refine List.Pairwise.imp_of_mem ?_ (hpw.and hids)
    intro a b ha hb hab
    show noKeyClash (if (a.id == c.id) = true then c' else a)
      (if (b.id == c.id) = true then c' else b)
    by_cases hxa : a.id = c.id <;> by_cases hxb : b.id = c.id
    · exact absurd (hxa.trans hxb.symm) hab.2
    · rw [if_pos (by simpa using hxa), if_neg (by simpa using hxb)]
      exact noKeyClash_symm (hclash b hb hxb)
    · rw [if_neg (by simpa using hxa), if_pos (by simpa using hxb)]
      exact hclash a ha hxa
    · rw [if_neg (by simpa using hxa), if_neg (by simpa using hxb)]
      exact hab.1
  · rw [List.pairwise_map]
    refine List.Pairwise.imp_of_mem ?_ hids
    intro a b ha hb hab
    rw [hidsf a, hidsf b]
    exact hab
  · intro o ho
    simp only [List.mem_map] at ho
    obtain ⟨a, ha, hoa⟩ := ho
    rw [← hoa, hidsf a]
    exact hlt a ha

theorem all_map_update (P : Contact → Bool) (l : List Contact) (c' : Contact) (k : Nat)
    (hall : l.all P = true) (hP : P c' = true) :
    (l.map (fun o => if o.id == k then c' else o)).all P = true := by
  rw [List.all_eq_true] at hall ⊢
  intro x hx
  simp only [List.mem_map] at hx
  obtain ⟨a, ha, hax⟩ := hx
  by_cases hk : a.id = k
  · rw [← hax, if_pos (by simpa using hk)]; exact hP
  · rw [← hax, if_neg (by simpa using hk)]; exact hall a ha

theorem all_append_one (P : Contact → Bool) (l : List Contact) (c : Contact)
    (hall : l.all P = true) (hP : P c = true) :
    (l ++ [c]).all P = true := by
  rw [List.all_eq_true] at hall ⊢
  intro x hx
  rcases List.mem_append.mp hx with hx | hx
  · exact hall x hx
  · rw [List.mem_singleton.mp hx]; exact hP


theorem upsertByEmail_stateOK (s : DBState) (v : ContactVals) (s2 : DBState) (cid : Nat)
    (ins : Bool) (hok : stateOK s = true)
    (h : upsertByEmail s v = .ok (s2, cid, ins)) : stateOK s2 = true := by
  cases hfind : s.contacts.find? (fun o => sqlConflict o.email v.email) with
  | some c =>
      simp only [upsertByEmail, hfind] at h
      by_cases hg : (s.contacts.any (fun o => o.id != c.id &&
          (sqlConflict o.email (applyEmailConflictUpdate c v s.now).email ||
           sqlConflict o.linkedin_url
             (applyEmailConflictUpdate c v s.now).linkedin_url))) = true
      · rw [if_pos hg] at h
        exact Except.noConfusion h
      · rw [if_neg hg] at h
        simp only [Except.ok.injEq, Prod.mk.injEq] at h
        obtain ⟨h1, h2, h3⟩ := h
        subst h1
        exact stateOK_update_generic s c (applyEmailConflictUpdate c v s.now) rfl hok
          (by simpa using hg)
  | none =>
      simp only [upsertByEmail, hfind] at h
      by_cases hg : (s.contacts.any (fun o =>
          sqlConflict o.email (freshContact s v).email ||
          sqlConflict o.linkedin_url (freshContact s v).linkedin_url)) = true
      · rw [if_pos hg] at h
        exact Except.noConfusion h
      · rw [if_neg hg] at h
        simp only [Except.ok.injEq, Prod.mk.injEq] at h
        obtain ⟨h1, h2, h3⟩ := h
        subst h1
        exact stateOK_insert_generic s (freshContact s v) rfl hok (by simpa using hg)

theorem upsertByLinkedinUrl_stateOK (s : DBState) (v : ContactVals) (s2 : DBState) (cid : Nat)
    (ins : Bool) (hok : stateOK s = true)
    (h : upsertByLinkedinUrl s v = .ok (s2, cid, ins)) : stateOK s2 = true := by
  cases hfind : s.contacts.find? (fun o => sqlConflict o.linkedin_url v.linkedin_url) with
  | some c =>
      simp only [upsertByLinkedinUrl, hfind] at h
      by_cases hg : (s.contacts.any (fun o => o.id != c.id &&
          (sqlConflict o.email (applyUrlConflictUpdate c v s.now).email ||
           sqlConflict o.linkedin_url
             (applyUrlConflictUpdate c v s.now).linkedin_url))) = true
      · rw [if_pos hg] at h
        exact Except.noConfusion h
      · rw [if_neg hg] at h
        simp only [Except.ok.injEq, Prod.mk.injEq] at h
        obtain ⟨h1, h2, h3⟩ := h
        subst h1
        exact stateOK_update_generic s c (applyUrlConflictUpdate c v s.now) rfl hok
          (by simpa using hg)
  | none =>
      simp only [upsertByLinkedinUrl, hfind] at h
      by_cases hg : (s.contacts.any (fun o =>
          sqlConflict o.email (freshContact s v).email ||
          sqlConflict o.linkedin_url (freshContact s v).linkedin_url)) = true
      · rw [if_pos hg] at h
        exact Except.noConfusion h
      · rw [if_neg hg] at h
        simp only [Except.ok.injEq, Prod.mk.injEq] at h
        obtain ⟨h1, h2, h3⟩ := h
        subst h1
        exact stateOK_insert_generic s (freshContact s v) rfl hok (by simpa using hg)

theorem upsertByEmail_hasId (s : DBState) (v : ContactVals) (s2 : DBState) (cid : Nat)
    (ins : Bool) (hall : s.contacts.all hasIdentifier = true)
    (hv : v.email.truthy = true)
    (h : upsertByEmail s v = .ok (s2, cid, ins)) :
    s2.contacts.all hasIdentifier = true := by
  cases hfind : s.contacts.find? (fun o => sqlConflict o.email v.email) with
  | some c =>
      simp only [upsertByEmail, hfind] at h
      by_cases hg : (s.contacts.any (fun o => o.id != c.id &&
          (sqlConflict o.email (applyEmailConflictUpdate c v s.now).email ||
           sqlConflict o.linkedin_url
             (applyEmailConflictUpdate c v s.now).linkedin_url))) = true
      · rw [if_pos hg] at h
        exact Except.noConfusion h
      · rw [if_neg hg] at h
        simp only [Except.ok.injEq, Prod.mk.injEq] at h
        obtain ⟨h1, h2, h3⟩ := h
        subst h1
        have hcf := List.find?_some hfind
        simp only [sqlConflict, Bool.and_eq_true] at hcf
        have hce : c.email = v.email := eq_of_beq hcf.1
        exact all_map_update hasIdentifier s.contacts _ c.id hall
          (by simp [hasIdentifier, applyEmailConflictUpdate, hce, hv])
  | none =>
      simp only [upsertByEmail, hfind] at h
      by_cases hg : (s.contacts.any (fun o =>
          sqlConflict o.email (freshContact s v).email ||
          sqlConflict o.linkedin_url (freshContact s v).linkedin_url)) = true
      · rw [if_pos hg] at h
        exact Except.noConfusion h
      · rw [if_neg hg] at h
        simp only [Except.ok.injEq, Prod.mk.injEq] at h
        obtain ⟨h1, h2, h3⟩ := h
        subst h1
        exact all_append_one hasIdentifier s.contacts (freshContact s v) hall
          (by simp [hasIdentifier, freshContact, hv])

theorem upsertByLinkedinUrl_hasId (s : DBState) (v : ContactVals) (s2 : DBState) (cid : Nat)
    (ins : Bool) (hall : s.contacts.all hasIdentifier = true)
    (hv : v.linkedin_url.truthy = true)
    (h : upsertByLinkedinUrl s v = .ok (s2, cid, ins)) :
    s2.contacts.all hasIdentifier = true := by
  cases hfind : s.contacts.find? (fun o => sqlConflict o.linkedin_url v.linkedin_url) with
  | some c =>
      simp only [upsertByLinkedinUrl, hfind] at h
      by_cases hg : (s.contacts.any (fun o => o.id != c.id &&
          (sqlConflict o.email (applyUrlConflictUpdate c v s.now).email ||
           sqlConflict o.linkedin_url
             (applyUrlConflictUpdate c v s.now).linkedin_url))) = true
      · rw [if_pos hg] at h
        exact Except.noConfusion h
      · rw [if_neg hg] at h
        simp only [Except.ok.injEq, Prod.mk.injEq] at h
        obtain ⟨h1, h2, h3⟩ := h
        subst h1
        have hcf := List.find?_some hfind
        simp only [sqlConflict, Bool.and_eq_true] at hcf
        have hcu : c.linkedin_url = v.linkedin_url := eq_of_beq hcf.1
        exact all_map_update hasIdentifier s.contacts _ c.id hall
          (by simp [hasIdentifier, applyUrlConflictUpdate, hcu, hv])
  | none =>
      simp only [upsertByLinkedinUrl, hfind] at h
      by_cases hg : (s.contacts.any (fun o =>
          sqlConflict o.email (freshContact s v).email ||
          sqlConflict o.linkedin_url (freshContact s v).linkedin_url)) = true
      · rw [if_pos hg] at h
        exact Except.noConfusion h
      · rw [if_neg hg] at h
        simp only [Except.ok.injEq, Prod.mk.injEq] at h
        obtain ⟨h1, h2, h3⟩ := h
        subst h1
        exact all_append_one hasIdentifier s.contacts (freshContact s v) hall
          (by simp [hasIdentifier, freshContact, hv])


theorem stateOK_congr (s s' : DBState) (hc : s'.contacts = s.contacts)
    (hn : s'.nextContactId = s.nextContactId) (h : stateOK s = true) : stateOK s' = true := by
  unfold stateOK at h ⊢
  rw [hc, hn]
  exact h

/-- C2 (amended): for every truthy payload whose extracted email and
profile URL are both empty, no contact row is written, one delivery log
entry is recorded with processed=false and a NULL processing note (the
code writes no outcome text on the skip path), and the endpoint answers
HTTP 200 with status "skipped" carrying the log entry identifier. The
empty object is excluded: it is rejected with 400 before any log entry
(see the counterexample). -/
theorem C2_skip_logs_no_contact (s : DBState) (data e n u w : Json)
    (hd : data.truthy = true)
    (he : emailOf data = .ok e) (hn : nameOf data = .ok n)
    (hu : linkedinUrlOf data = .ok u) (hw : websiteOf data = .ok w)
    (het : e.truthy = false) (hut : u.truthy = false) :
    (webhook s data).1.contacts = s.contacts ∧
    (∃ entry : LogEntry, (webhook s data).1.logs = s.logs ++ [entry] ∧
       entry.log_id = s.nextLogId ∧ entry.processed = false ∧
       entry.processing_notes = none ∧ entry.contact_id = none) ∧
    (webhook s data).2.1 = 200 ∧
    jget (webhook s data).2.2 "status" = some (Json.str "skipped") ∧
    jget (webhook s data).2.2 "log_id" = some (Json.num (Int.ofNat s.nextLogId)) := by
  have hpw := processWebhook_skip s data e n u w hd he hn hu hw het hut
  unfold webhook
  rw [hpw]
  exact ⟨rfl,
    ⟨⟨s.nextLogId, "linkedin_data", e, n, u, data, s.now, false, none, none⟩,
      rfl, rfl, rfl, rfl, rfl⟩, rfl, rfl, rfl⟩

/-- C2 witness: the skip behaviour at the concrete payload
`{"name":"x"}` from the empty store. -/
theorem C2_skip_witness :
    (webhook emptyState nameOnlyDelivery).1.contacts = emptyState.contacts ∧
    (∃ entry : LogEntry,
       (webhook emptyState nameOnlyDelivery).1.logs = emptyState.logs ++ [entry] ∧
       entry.log_id = emptyState.nextLogId ∧ entry.processed = false ∧
       entry.processing_notes = none ∧ entry.contact_id = none) ∧
    (webhook emptyState nameOnlyDelivery).2.1 = 200 ∧
    jget (webhook emptyState nameOnlyDelivery).2.2 "status" = some (Json.str "skipped") ∧
    jget (webhook emptyState nameOnlyDelivery).2.2 "log_id"
      = some (Json.num (Int.ofNat emptyState.nextLogId)) :=
  C2_skip_logs_no_contact emptyState nameOnlyDelivery (Json.str "") (Json.str "x")
    (Json.str "") (Json.str "") (by decide) (by decide) (by decide) (by decide)
    (by decide) (by decide) (by decide)

/-- C3 (amended): uniqueness applies to non-NULL stored values - the
housekeeping invariant (no two rows share a non-NULL email, nor a
non-NULL linkedin_url, distinct ids below the sequence) is preserved by
every delivery; any number of contacts with NULL email coexist (two
URL-only deliveries yield two rows, both with NULL email). The email
branch, however, stores the empty-string linkedin_url verbatim rather
than NULL, so a second email-only delivery collides on it and fails
instead of persisting (see the counterexample). -/
theorem C3_uniqueness_invariant :
    (∀ (s : DBState) (data : Json), stateOK s = true → stateOK (webhook s data).1 = true) ∧
    ((webhook (webhook emptyState urlOnlyA).1 urlOnlyB).1.contacts.map (fun c => c.email))
      = [Json.null, Json.null] := by
  constructor
  · intro s data hok
    unfold webhook
    cases hp : processWebhook s data with
    | error m => exact hok
    | ok r =>
        rcases processWebhook_shape s data r hp with h400 | hskip | hsucc
        · rw [h400]; exact hok
        · obtain ⟨e, n, u, _, _, _, _, _, hr⟩ := hskip
          rw [hr]
          exact stateOK_congr s _ rfl rfl hok
        · obtain ⟨e, n, u, s2, cid, ins, v, he, hn, hu, hvn, hvr, hbr, hr⟩ := hsucc
          rw [hr]
          have hs1 : stateOK (insertLog s e n u data).1 = true :=
            stateOK_congr s _ rfl rfl hok
          rcases hbr with ⟨het, hve, hvu, hup⟩ | ⟨het, hut, hve, hvu, hup⟩
          · exact stateOK_congr s2 _ rfl rfl (upsertByEmail_stateOK _ _ _ _ _ hs1 hup)
          · exact stateOK_congr s2 _ rfl rfl (upsertByLinkedinUrl_stateOK _ _ _ _ _ hs1 hup)
  · decide

/-- C3 witness: the invariant theorem applied at a concrete state and
delivery. -/
theorem C3_uniqueness_witness :
    stateOK emptyState = true ∧ stateOK (webhook emptyState fullDelivery).1 = true :=
  ⟨by decide, C3_uniqueness_invariant.1 emptyState fullDelivery (by decide)⟩

/-- C4 (amended): POST /webhook answers 400 with no state change when the
parsed body is empty or null; 200 with status "skipped" and body keys
status, message, log_id, data_keys when no identifier is extractable from
a truthy body; on a successful create-or-update, status "success" with
body keys status, action, contact_id, name, email, linkedin_url,
matched_by, log_id - HTTP 201 when the action is "created" and 200 when
it is "updated"; and 500 with body keys status, message and
status "error" on a fault. -/
theorem C4_response_shapes (s : DBState) (data : Json) :
    ((webhook s data).2.1 = 400 ∧ (webhook s data).1 = s ∧
       (webhook s data).2.2 = noDataBody) ∨
    ((webhook s data).2.1 = 200 ∧
       jget (webhook s data).2.2 "status" = some (Json.str "skipped") ∧
       jkeys (webhook s data).2.2 = ["status", "message", "log_id", "data_keys"]) ∨
    (jget (webhook s data).2.2 "status" = some (Json.str "success") ∧
       jkeys (webhook s data).2.2 = ["status", "action", "contact_id", "name", "email",
         "linkedin_url", "matched_by", "log_id"] ∧
       (((webhook s data).2.1 = 201 ∧
           jget (webhook s data).2.2 "action" = some (Json.str "created")) ∨
        ((webhook s data).2.1 = 200 ∧
           jget (webhook s data).2.2 "action" = some (Json.str "updated")))) ∨
    ((webhook s data).2.1 = 500 ∧ (webhook s data).1 = s ∧
       jget (webhook s data).2.2 "status" = some (Json.str "error") ∧
       jkeys (webhook s data).2.2 = ["status", "message"]) := by
  unfold webhook
  cases hp : processWebhook s data with
  | error m =>
      exact Or.inr (Or.inr (Or.inr ⟨rfl, rfl, rfl, rfl⟩))
  | ok r =>
      rcases processWebhook_shape s data r hp with h400 | hskip | hsucc
      · rw [h400]
        exact Or.inl ⟨rfl, rfl, rfl⟩
      · obtain ⟨e, n, u, he, hn, hu, het, hut, hr⟩ := hskip
        rw [hr]
        exact Or.inr (Or.inl ⟨rfl, rfl, rfl⟩)
      · obtain ⟨e, n, u, s2, cid, ins, v, he, hn, hu, hvn, hvr, hbr, hr⟩ := hsucc
        rw [hr]
        cases ins
        · exact Or.inr (Or.inr (Or.inl ⟨rfl, rfl, Or.inr ⟨rfl, rfl⟩⟩))
        · exact Or.inr (Or.inr (Or.inl ⟨rfl, rfl, Or.inl ⟨rfl, rfl⟩⟩))

/-- C8: a fault anywhere in the transaction leaves the store exactly as it
was (the rollback undoes the delivery log entry and any contact change)
and surfaces as a 500 response whose body is status "error" plus the
message. -/
theorem C8_fault_rolls_back (s : DBState) (data : Json) :
    ((webhook s data).2.1 = 500 → (webhook s data).1 = s ∧
       jget (webhook s data).2.2 "status" = some (Json.str "error")) ∧
    (∀ m, processWebhook s data = .error m →
       webhook s data = (s, 500,
         Json.obj [("status", Json.str "error"), ("message", Json.str m)])) := by
  unfold webhook
  cases hp : processWebhook s data with
  | error m0 =>
      constructor
      · intro _
        exact ⟨rfl, rfl⟩
      · intro m hm
        injection hm with hm
        subst hm
        rfl
  | ok r =>
      rcases processWebhook_shape s data r hp with h400 | hskip | hsucc
      · rw [h400]
        exact ⟨fun h5 => absurd (show (400 : Nat) = 500 from h5) (by decide),
          fun m hm => Except.noConfusion hm⟩
      · obtain ⟨e, n, u, _, _, _, _, _, hr⟩ := hskip
        rw [hr]
        exact ⟨fun h5 => absurd (show (200 : Nat) = 500 from h5) (by decide),
          fun m hm => Except.noConfusion hm⟩
      · obtain ⟨e, n, u, s2, cid, ins, v, _, _, _, _, _, _, hr⟩ := hsucc
        rw [hr]
        cases ins
        · exact ⟨fun h5 => absurd (show (200 : Nat) = 500 from h5) (by decide),
            fun m hm => Except.noConfusion hm⟩
        · exact ⟨fun h5 => absurd (show (201 : Nat) = 500 from h5) (by decide),
            fun m hm => Except.noConfusion hm⟩

/-- C8 witness: a concrete fault (contactInfo is a truthy non-object, so
extraction raises) answers 500 and leaves the store untouched. -/
theorem C8_fault_witness :
    (webhook emptyState badContactInfoDelivery).2.1 = 500 ∧
    (webhook emptyState badContactInfoDelivery).1 = emptyState :=
  ⟨by decide,
    ((C8_fault_rolls_back emptyState badContactInfoDelivery).1 (by decide)).1⟩

/-- C9: every persisted contact row keeps at least one of email or
profile URL truthy (non-NULL and non-empty): records lacking both are
only logged, never written, and both upsert branches preserve the
predicate on every insert and update. -/
theorem C9_stored_rows_have_identifier (s : DBState) (data : Json)
    (hall : s.contacts.all hasIdentifier = true) :
    (webhook s data).1.contacts.all hasIdentifier = true := by
  unfold webhook
  cases hp : processWebhook s data with
  | error m => exact hall
  | ok r =>
      rcases processWebhook_shape s data r hp with h400 | hskip | hsucc
      · rw [h400]; exact hall
      · obtain ⟨e, n, u, _, _, _, _, _, hr⟩ := hskip
        rw [hr]
        exact hall
      · obtain ⟨e, n, u, s2, cid, ins, v, he, hn, hu, hvn, hvr, hbr, hr⟩ := hsucc
        rw [hr]
        rcases hbr with ⟨het, hve, hvu, hup⟩ | ⟨het, hut, hve, hvu, hup⟩
        · exact upsertByEmail_hasId (insertLog s e n u data).1 v s2 cid ins hall
            (by rw [hve]; exact het) hup
        · exact upsertByLinkedinUrl_hasId (insertLog s e n u data).1 v s2 cid ins hall
            (by rw [hvu]; exact hut) hup

/-- C9 witness: the invariant applied to a concrete delivery from the
empty store. -/
theorem C9_identifier_witness :
    (webhook emptyState fullDelivery).1.contacts.all hasIdentifier = true :=
  C9_stored_rows_have_identifier emptyState fullDelivery (by decide)


theorem sqlConflict_null_right (a : Json) : sqlConflict a Json.null = false := by
  cases hx : a == Json.null <;> simp [sqlConflict, hx]

/-- C5: when the email-key branch is not taken and the delivery matches an
existing contact by profile URL, every field of the matched row is
overwritten from the incoming record except the internal id and
created_at, the conflict-key linkedin_url stays equal, and the existing
email is preserved (the incoming email column is NULL on this branch, so
the CASE keeps the stored one) - a profile-URL-only delivery never erases
a previously captured email. -/
theorem C5_url_update_preserves_email (s : DBState) (data e n u w ti co lo pd : Json)
    (c : Contact)
    (hok : stateOK s = true)
    (hd : data.truthy = true)
    (he : emailOf data = .ok e) (hn : nameOf data = .ok n)
    (hu : linkedinUrlOf data = .ok u) (hw : websiteOf data = .ok w)
    (hti : topGet data "title" = .ok ti) (hco : topGet data "company" = .ok co)
    (hlo : topGet data "location" = .ok lo) (hpd : topGet data "profile_data" = .ok pd)
    (het : e.truthy = false) (hut : u.truthy = true)
    (hfind : s.contacts.find? (fun o => sqlConflict o.linkedin_url u) = some c) :
    ∃ c' : Contact,
      (webhook s data).1.contacts
        = s.contacts.map (fun o => if o.id == c.id then c' else o) ∧
      c'.id = c.id ∧ c'.created_at = c.created_at ∧
      c'.email = c.email ∧ c'.linkedin_url = c.linkedin_url ∧
      c'.name = n ∧ c'.title = ti ∧ c'.company = co ∧ c'.location = lo ∧
      c'.website = w ∧ c'.profile_data = pd ∧ c'.raw_json = data ∧
      c'.updated_at = s.now ∧
      (webhook s data).2.1 = 200 ∧
      jget (webhook s data).2.2 "action" = some (Json.str "updated") ∧
      jget (webhook s data).2.2 "contact_id" = some (Json.num (Int.ofNat c.id)) := by
  have hc_mem : c ∈ s.contacts := List.mem_of_find?_eq_some hfind
  obtain ⟨hpw, hids, hlt⟩ := (stateOK_iff s).mp hok
  have hcc : ∀ o ∈ s.contacts, o.id ≠ c.id → noKeyClash o c := by
    intro o ho hne
    refine List.Pairwise.forall noKeyClash_symm hpw ho hc_mem ?_
    intro hoc
    exact hne (congrArg Contact.id hoc)
  have hg : s.contacts.any (fun o => o.id != c.id &&
      (sqlConflict o.email
        (applyUrlConflictUpdate c ⟨n, ti, co, lo, Json.null, u, w, pd, data⟩ s.now).email ||
       sqlConflict o.linkedin_url
        (applyUrlConflictUpdate c ⟨n, ti, co, lo, Json.null, u, w, pd, data⟩
          s.now).linkedin_url)) = false := by
    cases hany : s.contacts.any (fun o => o.id != c.id &&
        (sqlConflict o.email
          (applyUrlConflictUpdate c ⟨n, ti, co, lo, Json.null, u, w, pd, data⟩ s.now).email ||
         sqlConflict o.linkedin_url
          (applyUrlConflictUpdate c ⟨n, ti, co, lo, Json.null, u, w, pd, data⟩
            s.now).linkedin_url)) with
    | false => rfl
    | true =>
        obtain ⟨o, ho, hpo⟩ := List.any_eq_true.mp hany
        simp only [applyUrlConflictUpdate, sqlNeqEmptyStr, Bool.and_eq_true,
          Bool.or_eq_true, bne_iff_ne, ne_eq, Bool.false_eq_true, if_false] at hpo
        obtain ⟨hone, hcf⟩ := hpo
        have hclash := hcc o ho hone
        rcases hcf with hx | hx
        · rw [hclash.1] at hx
          exact Bool.noConfusion hx
        · rw [hclash.2] at hx
          exact Bool.noConfusion hx
  have hup := upsertByLinkedinUrl_update (insertLog s e n u data).1
    ⟨n, ti, co, lo, Json.null, u, w, pd, data⟩ c hfind hg
  have hpc := processWebhook_url_ok s data e n u w ti co lo pd _ c.id false
    hd he hn hu hw hti hco hlo hpd het hut hup
  refine ⟨applyUrlConflictUpdate c ⟨n, ti, co, lo, Json.null, u, w, pd, data⟩
      ((insertLog s e n u data).1.now),
    ?_, rfl, rfl, rfl, rfl, rfl, rfl, rfl, rfl, rfl, rfl, rfl, rfl, ?_, ?_, ?_⟩
  · unfold webhook
    rw [hpc]
    rfl
  · unfold webhook
    rw [hpc]
    rfl
  · unfold webhook
    rw [hpc]
    rfl
  · unfold webhook
    rw [hpc]
    rfl


/-- C6 (amended): field extraction completes without raising whenever the
contactInfo value is absent, null or otherwise falsy, or is a JSON
object whose websites value is absent/falsy or is a non-empty array whose
first entry is an object carrying a url key. (Outside these shapes - a
truthy non-object contactInfo, a truthy non-array websites, or a first
websites entry without url - extraction raises and the handler answers
500; see the counterexample.) -/
theorem C6_tolerant_extraction (fs : List (String × Json))
    (hci : ((Json.lookup fs "contactInfo").getD (Json.obj [])).truthy = false ∨
           (∃ g, (Json.lookup fs "contactInfo").getD (Json.obj []) = Json.obj g))
    (hws : ∀ g, (Json.lookup fs "contactInfo").getD (Json.obj []) = Json.obj g →
           (((Json.lookup g "websites").getD (Json.arr [])).truthy = false ∨
            (∃ wfs rest, (Json.lookup g "websites").getD (Json.arr [])
                = Json.arr (Json.obj wfs :: rest) ∧
              (Json.lookup wfs "url").isSome = true))) :
    (∃ a, emailOf (Json.obj fs) = .ok a) ∧ (∃ b, nameOf (Json.obj fs) = .ok b) ∧
    (∃ q, linkedinUrlOf (Json.obj fs) = .ok q) ∧
    (∃ z, websiteOf (Json.obj fs) = .ok z) := by
  have hciv : contactInfoOf (Json.obj fs)
      = .ok ((Json.lookup fs "contactInfo").getD (Json.obj [])) := rfl
  refine ⟨?_, ⟨(Json.lookup fs "name").getD (Json.str ""), rfl⟩, ?_, ?_⟩
  · by_cases ht : ((Json.lookup fs "contactInfo").getD (Json.obj [])).truthy = true
    · rcases hci with hfalse | ⟨g, hg⟩
      · rw [hfalse] at ht
        exact Bool.noConfusion ht
      · rw [hg] at ht
        refine ⟨(Json.lookup g "email").getD (Json.str ""), ?_⟩
        simp only [emailOf, hciv, exceptBind_ok, exceptPure, hg, ht, Json.dictGet, if_true]
    · have ht' : ((Json.lookup fs "contactInfo").getD (Json.obj [])).truthy = false := by
        cases hx : ((Json.lookup fs "contactInfo").getD (Json.obj [])).truthy
        · rfl
        · exact absurd hx ht
      refine ⟨Json.str "", ?_⟩
      simp only [emailOf, hciv, exceptBind_ok, exceptPure, ht', Bool.false_eq_true, if_false]
  · by_cases ht : ((Json.lookup fs "contactInfo").getD (Json.obj [])).truthy = true
    · rcases hci with hfalse | ⟨g, hg⟩
      · rw [hfalse] at ht
        exact Bool.noConfusion ht
      · rw [hg] at ht
        refine ⟨(Json.lookup g "linkedinUrl").getD (Json.str ""), ?_⟩
        simp only [linkedinUrlOf, hciv, exceptBind_ok, exceptPure, hg, ht, Json.dictGet,
          if_true]
    · have ht' : ((Json.lookup fs "contactInfo").getD (Json.obj [])).truthy = false := by
        cases hx : ((Json.lookup fs "contactInfo").getD (Json.obj [])).truthy
        · rfl
        · exact absurd hx ht
      refine ⟨(Json.lookup fs "profileUrl").getD (Json.str ""), ?_⟩
      simp only [linkedinUrlOf, hciv, exceptBind_ok, exceptPure, ht', Json.dictGet,
        Bool.false_eq_true, if_false]
  · by_cases ht : ((Json.lookup fs "contactInfo").getD (Json.obj [])).truthy = true
    · rcases hci with hfalse | ⟨g, hg⟩
      · rw [hfalse] at ht
        exact Bool.noConfusion ht
      · rw [hg] at ht
        rcases hws g hg with hwf | ⟨wfs, rest, hweq, hsome⟩
        · refine ⟨Json.str "", ?_⟩
          simp only [websiteOf, hciv, exceptBind_ok, exceptPure, hg, ht, Json.dictGet,
            if_true, hwf, Bool.false_eq_true, if_false]
        · obtain ⟨v, hv⟩ := Option.isSome_iff_exists.mp hsome
          refine ⟨v, ?_⟩
          have htw : (Json.arr (Json.obj wfs :: rest)).truthy = true := rfl
          simp only [websiteOf, hciv, exceptBind_ok, exceptPure, hg, ht, Json.dictGet,
            if_true, hweq, htw, hv]
    · have ht' : ((Json.lookup fs "contactInfo").getD (Json.obj [])).truthy = false := by
        cases hx : ((Json.lookup fs "contactInfo").getD (Json.obj [])).truthy
        · rfl
        · exact absurd hx ht
      refine ⟨Json.str "", ?_⟩
      simp only [websiteOf, hciv, exceptBind_ok, exceptPure, ht', Bool.false_eq_true,
        if_false]
      all_goals rfl

/-- C6 witness: the tolerant-shape theorem applied at a concrete
well-shaped payload with a full nested structure. -/
theorem C6_tolerant_witness :
    (∃ a, emailOf fullDelivery = .ok a) ∧ (∃ b, nameOf fullDelivery = .ok b) ∧
    (∃ q, linkedinUrlOf fullDelivery = .ok q) ∧
    (∃ z, websiteOf fullDelivery = .ok z) :=
  C6_tolerant_extraction
    [("name", Json.str "Ada"),
     ("contactInfo", Json.obj [("email", Json.str "ada@x.com"),
       ("linkedinUrl", Json.str "li.com/ada"),
       ("websites", Json.arr [Json.obj [("url", Json.str "https://ada.example"),
         ("text", Json.str "home")]])])]
    (Or.inr ⟨[("email", Json.str "ada@x.com"), ("linkedinUrl", Json.str "li.com/ada"),
       ("websites", Json.arr [Json.obj [("url", Json.str "https://ada.example"),
         ("text", Json.str "home")]])], by decide⟩)
    (by
      intro g hg
      injection hg with hg
      subst hg
      exact Or.inr ⟨[("url", Json.str "https://ada.example"), ("text", Json.str "home")],
        [], by decide, by decide⟩)

/-- C7 (amended): whenever the contactInfo value is truthy (a non-empty
object), the extracted profile URL is its linkedinUrl field with empty
default and the top-level profileUrl is NOT consulted; the fallback to
profileUrl happens only when contactInfo is absent, null or otherwise
falsy. -/
theorem C7_linkedin_url_extraction (fs : List (String × Json)) :
    (∀ g, (Json.lookup fs "contactInfo").getD (Json.obj []) = Json.obj g →
       (Json.obj g).truthy = true →
       linkedinUrlOf (Json.obj fs) = .ok ((Json.lookup g "linkedinUrl").getD (Json.str ""))) ∧
    (((Json.lookup fs "contactInfo").getD (Json.obj [])).truthy = false →
       linkedinUrlOf (Json.obj fs) = .ok ((Json.lookup fs "profileUrl").getD (Json.str ""))) := by
  have hciv : contactInfoOf (Json.obj fs)
      = .ok ((Json.lookup fs "contactInfo").getD (Json.obj [])) := rfl
  constructor
  · intro g hg ht
    simp only [linkedinUrlOf, hciv, exceptBind_ok, exceptPure, hg, ht, Json.dictGet, if_true]
  · intro hf
    simp only [linkedinUrlOf, hciv, exceptBind_ok, exceptPure, hf, Json.dictGet,
      Bool.false_eq_true, if_false]

/-- C7 witness: at the concrete payload with a truthy contactInfo lacking
linkedinUrl, the extracted URL is the empty default, not the top-level
profileUrl. -/
theorem C7_linkedin_url_witness :
    linkedinUrlOf ciNoUrlDelivery = .ok (Json.str "") :=
  (C7_linkedin_url_extraction
      [("contactInfo", Json.obj [("email", Json.str "a@x.com")]),
       ("profileUrl", Json.str "li.com/a")]).1
    [("email", Json.str "a@x.com")] (by decide) (by decide)

/-- C10: the profile-URL branch coerces the empty extracted email to SQL
NULL before the insert (the stored row has NULL email), so URL-only
contacts never collide on the email unique constraint and two of them
coexist; the email branch stores its extracted values verbatim,
including the empty-string linkedin_url. -/
theorem C10_null_email_coercion :
    (∀ (s : DBState) (data e n u w ti co lo pd : Json),
       data.truthy = true → emailOf data = .ok e → nameOf data = .ok n →
       linkedinUrlOf data = .ok u → websiteOf data = .ok w →
       topGet data "title" = .ok ti → topGet data "company" = .ok co →
       topGet data "location" = .ok lo → topGet data "profile_data" = .ok pd →
       e.truthy = false → u.truthy = true →
       s.contacts.find? (fun o => sqlConflict o.linkedin_url u) = none →
       ∃ row : Contact,
         (webhook s data).1.contacts = s.contacts ++ [row] ∧
         row.email = Json.null ∧ row.linkedin_url = u ∧ row.id = s.nextContactId) ∧
    (∀ (s : DBState) (data e n u w ti co lo pd : Json),
       data.truthy = true → emailOf data = .ok e → nameOf data = .ok n →
       linkedinUrlOf data = .ok u → websiteOf data = .ok w →
       topGet data "title" = .ok ti → topGet data "company" = .ok co →
       topGet data "location" = .ok lo → topGet data "profile_data" = .ok pd →
       e.truthy = true →
       s.contacts.find? (fun o => sqlConflict o.email e) = none →
       s.contacts.any (fun o => sqlConflict o.linkedin_url u) = false →
       ∃ row : Contact,
         (webhook s data).1.contacts = s.contacts ++ [row] ∧
         row.email = e ∧ row.linkedin_url = u ∧ row.id = s.nextContactId) ∧
    ((webhook (webhook emptyState urlOnlyA).1 urlOnlyB).1.contacts.map
        (fun c => (c.email, c.linkedin_url)))
      = [(Json.null, Json.str "li.com/a"), (Json.null, Json.str "li.com/b")] ∧
    ((webhook emptyState emailOnlyA).1.contacts.map (fun c => (c.email, c.linkedin_url)))
      = [(Json.str "a@x.com", Json.str "")] := by
  refine ⟨?_, ?_, by decide, by decide⟩
  · intro s data e n u w ti co lo pd hd he hn hu hw hti hco hlo hpd het hut hfind
    have hnone := List.find?_eq_none.mp hfind
    have hg : (insertLog s e n u data).1.contacts.any (fun o =>
        sqlConflict o.email (freshContact (insertLog s e n u data).1
          ⟨n, ti, co, lo, Json.null, u, w, pd, data⟩).email ||
        sqlConflict o.linkedin_url (freshContact (insertLog s e n u data).1
          ⟨n, ti, co, lo, Json.null, u, w, pd, data⟩).linkedin_url) = false := by
      cases hany : (insertLog s e n u data).1.contacts.any (fun o =>
          sqlConflict o.email (freshContact (insertLog s e n u data).1
            ⟨n, ti, co, lo, Json.null, u, w, pd, data⟩).email ||
          sqlConflict o.linkedin_url (freshContact (insertLog s e n u data).1
            ⟨n, ti, co, lo, Json.null, u, w, pd, data⟩).linkedin_url) with
      | false => rfl
      | true =>
          obtain ⟨o, ho, hpo⟩ := List.any_eq_true.mp hany
          simp only [freshContact, sqlConflict_null_right, Bool.false_or] at hpo
          exact absurd hpo (hnone o ho)
    have hup := upsertByLinkedinUrl_insert (insertLog s e n u data).1
      ⟨n, ti, co, lo, Json.null, u, w, pd, data⟩ hfind hg
    have hpc := processWebhook_url_ok s data e n u w ti co lo pd _ _ true
      hd he hn hu hw hti hco hlo hpd het hut hup
    refine ⟨freshContact (insertLog s e n u data).1
        ⟨n, ti, co, lo, Json.null, u, w, pd, data⟩, ?_, rfl, rfl, rfl⟩
    unfold webhook
    rw [hpc]
    rfl
  · intro s data e n u w ti co lo pd hd he hn hu hw hti hco hlo hpd het hfind hgu
    have hnone := List.find?_eq_none.mp hfind
    have hgf := guard_forall hgu
    have hg : (insertLog s e n u data).1.contacts.any (fun o =>
        sqlConflict o.email (freshContact (insertLog s e n u data).1
          ⟨n, ti, co, lo, e, u, w, pd, data⟩).email ||
        sqlConflict o.linkedin_url (freshContact (insertLog s e n u data).1
          ⟨n, ti, co, lo, e, u, w, pd, data⟩).linkedin_url) = false := by
      cases hany : (insertLog s e n u data).1.contacts.any (fun o =>
          sqlConflict o.email (freshContact (insertLog s e n u data).1
            ⟨n, ti, co, lo, e, u, w, pd, data⟩).email ||
          sqlConflict o.linkedin_url (freshContact (insertLog s e n u data).1
            ⟨n, ti, co, lo, e, u, w, pd, data⟩).linkedin_url) with
      | false => rfl
      | true =>
          obtain ⟨o, ho, hpo⟩ := List.any_eq_true.mp hany
          simp only [freshContact, Bool.or_eq_true] at hpo
          rcases hpo with hx | hx
          · exact absurd hx (hnone o ho)
          · rw [hgf o ho] at hx
            exact Bool.noConfusion hx
    have hup := upsertByEmail_insert (insertLog s e n u data).1
      ⟨n, ti, co, lo, e, u, w, pd, data⟩ hfind hg
    have hpc := processWebhook_email_ok s data e n u w ti co lo pd _ _ true
      hd he hn hu hw hti hco hlo hpd het hup
    refine ⟨freshContact (insertLog s e n u data).1
        ⟨n, ti, co, lo, e, u, w, pd, data⟩, ?_, rfl, rfl, rfl⟩
    unfold webhook
    rw [hpc]
    rfl

/-- C10 witness: the NULL-coercion insert applied at the concrete
URL-only payload from the empty store. -/
theorem C10_null_email_witness :
    ∃ row : Contact,
      (webhook emptyState urlOnlyA).1.contacts = emptyState.contacts ++ [row] ∧
      row.email = Json.null ∧ row.linkedin_url = Json.str "li.com/a" ∧
      row.id = emptyState.nextContactId :=
  C10_null_email_coercion.1 emptyState urlOnlyA (Json.str "") (Json.str "A")
    (Json.str "li.com/a") (Json.str "") (Json.str "") (Json.str "") (Json.str "")
    (Json.str "") (by decide) (by decide) (by decide) (by decide) (by decide)
    (by decide) (by decide) (by decide) (by decide) (by decide) (by decide) (by decide)


/-- C5 witness: replaying the URL-only delivery against the store that
already holds its row updates that row in place, preserving its (NULL)
email and its creation timestamp. -/
theorem C5_url_update_witness :
    ∃ c' : Contact,
      (webhook (webhook emptyState urlOnlyA).1 urlOnlyA).1.contacts
        = (webhook emptyState urlOnlyA).1.contacts.map
            (fun o => if o.id == urlRowA.id then c' else o) ∧
      c'.id = urlRowA.id ∧ c'.created_at = urlRowA.created_at ∧
      c'.email = urlRowA.email ∧ c'.linkedin_url = urlRowA.linkedin_url ∧
      c'.name = Json.str "A" ∧ c'.title = Json.str "" ∧ c'.company = Json.str "" ∧
      c'.location = Json.str "" ∧ c'.website = Json.str "" ∧
      c'.profile_data = Json.str "" ∧ c'.raw_json = urlOnlyA ∧
      c'.updated_at = (webhook emptyState urlOnlyA).1.now ∧
      (webhook (webhook emptyState urlOnlyA).1 urlOnlyA).2.1 = 200 ∧
      jget (webhook (webhook emptyState urlOnlyA).1 urlOnlyA).2.2 "action"
        = some (Json.str "updated") ∧
      jget (webhook (webhook emptyState urlOnlyA).1 urlOnlyA).2.2 "contact_id"
        = some (Json.num (Int.ofNat urlRowA.id)) :=
  C5_url_update_preserves_email (webhook emptyState urlOnlyA).1 urlOnlyA
    (Json.str "") (Json.str "A") (Json.str "li.com/a") (Json.str "") (Json.str "")
    (Json.str "") (Json.str "") (Json.str "") urlRowA
    (by decide) (by decide) (by decide) (by decide) (by decide) (by decide)
    (by decide) (by decide) (by decide) (by decide) (by decide) (by decide) (by decide)

end WebhookListener
